import Mathlib

/-!
Verification of the video-transcriber pipeline (src/transcribe.py).

The script is a linear pipeline: validate inputs, extract audio via an
external transcoder, upload the WAV to a remote recognition service,
normalize the JSON response into a transcript document, write it to disk
and print a human-readable rendering.  The definitions below are a shallow
embedding of the pure/observable parts of that script; machine floats are
modelled by rationals, Python dictionaries with optional keys by structures
with `Option` fields, and the control flow of `main` (which matters only
for the temp-file cleanup claim) by an explicit function on an abstract
file-system state.
-/

/-- Python `int()` applied to a rational value: truncation toward zero.
Used by `format_timestamp` (line 28) and the timeout computation (line 78). -/
def pyInt (q : ℚ) : Int := Int.tdiv q.num q.den

/-- Python `f"{n:02d}"`: render an integer, zero-padding to width 2.
For `0 ≤ n < 10` Python yields `"0" + str(n)`; otherwise `str(n)`
(a negative or two-digit value is already at least two characters wide). -/
def pad2 (n : Int) : String :=
  if 0 ≤ n ∧ n < 10 then "0" ++ toString n else toString n

/-- `format_timestamp` (src/transcribe.py lines 26-33).
`total_seconds = int(seconds)` truncates toward zero; Python `divmod` is
floor-based, hence `Int.fdiv` / `Int.fmod`. -/
def format_timestamp (seconds : ℚ) : String :=
  let total_seconds : Int := pyInt seconds
  let hours : Int := Int.fdiv total_seconds 3600
  let remainder : Int := Int.fmod total_seconds 3600
  let minutes : Int := Int.fdiv remainder 60
  let secs : Int := Int.fmod remainder 60
  if 0 < hours then
    toString hours ++ "h" ++ pad2 minutes ++ "m" ++ pad2 secs ++ "s"
  else
    toString minutes ++ "m" ++ pad2 secs ++ "s"

/-- The output shape claimed by the specification, as a function of the
truncated (whole-second) input: minutes/seconds decomposition with the
seconds component zero-padded, an hours component exactly when the value
reaches one hour. -/
def spec_format (t : ℕ) : String :=
  if t < 3600 then
    toString (t / 60) ++ "m" ++ pad2 (Int.ofNat (t % 60)) ++ "s"
  else
    toString (t / 3600) ++ "h" ++ pad2 (Int.ofNat (t % 3600 / 60)) ++ "m" ++
      pad2 (Int.ofNat (t % 60)) ++ "s"

theorem pyInt_nonneg {q : ℚ} (h : 0 ≤ q) : 0 ≤ pyInt q :=
  Int.tdiv_nonneg (Rat.num_nonneg.mpr h) (Int.ofNat_zero_le _)

theorem toString_intOfNat (n : ℕ) : toString (Int.ofNat n) = toString n := rfl

theorem toNat_intOfNat (n : ℕ) : (Int.ofNat n).toNat = n := rfl

theorem fdiv3600 (n : ℕ) : Int.fdiv (Int.ofNat n) 3600 = Int.ofNat (n / 3600) :=
  (Int.ofNat_fdiv n 3600).symm

theorem fmod3600 (n : ℕ) : Int.fmod (Int.ofNat n) 3600 = Int.ofNat (n % 3600) :=
  (Int.ofNat_fmod n 3600).symm

theorem fdiv60 (n : ℕ) : Int.fdiv (Int.ofNat n) 60 = Int.ofNat (n / 60) :=
  (Int.ofNat_fdiv n 60).symm

theorem fmod60 (n : ℕ) : Int.fmod (Int.ofNat n) 60 = Int.ofNat (n % 60) :=
  (Int.ofNat_fmod n 60).symm

theorem format_timestamp_eq_spec_format {q : ℚ} (h : 0 ≤ q) :
    format_timestamp q = spec_format (pyInt q).toNat := by
  obtain ⟨n, hn⟩ : ∃ n : ℕ, pyInt q = Int.ofNat n :=
    ⟨(pyInt q).toNat, (Int.toNat_of_nonneg (pyInt_nonneg h)).symm⟩
  simp only [format_timestamp, spec_format]
  rw [hn, toNat_intOfNat, fdiv3600, fmod3600, fdiv60, fmod60,
    Nat.mod_mod_of_dvd n (by norm_num : (60 : ℕ) ∣ 3600)]
  rcases Nat.lt_or_ge n 3600 with hlt | hge
  · rw [if_pos hlt, Nat.div_eq_of_lt hlt, Nat.mod_eq_of_lt hlt,
      if_neg (show ¬(0 : ℤ) < Int.ofNat 0 by decide), toString_intOfNat]
  · rw [if_neg (Nat.not_lt.mpr hge),
      if_pos (show (0 : ℤ) < Int.ofNat (n / 3600) from
        Int.ofNat_pos.mpr (Nat.div_pos hge (by norm_num))),
      toString_intOfNat]

theorem pad2_length : ∀ n : ℕ, n < 60 → (pad2 (Int.ofNat n)).length = 2 := by
  decide

theorem pyInt_natCast (n : ℕ) : pyInt (n : ℚ) = Int.ofNat n := by
  unfold pyInt
  rw [Rat.num_natCast, Rat.den_natCast]
  exact Int.tdiv_one _ |>.trans rfl

/-- C2: applied to non-negative seconds, `format_timestamp` truncates to
whole seconds (no rounding) and produces the minutes form below one hour,
the hours form otherwise; in particular `0 ↦ "0m00s"`, `59 ↦ "0m59s"`,
`60 ↦ "1m00s"`, `3661 ↦ "1h01m01s"`, and `1.9 ↦ "0m01s"`. -/
theorem format_timestamp_spec :
    (∀ q : ℚ, 0 ≤ q → format_timestamp q = spec_format (pyInt q).toNat) ∧
    format_timestamp 0 = "0m00s" ∧
    format_timestamp 59 = "0m59s" ∧
    format_timestamp 60 = "1m00s" ∧
    format_timestamp 3661 = "1h01m01s" ∧
    format_timestamp (19 / 10) = "0m01s" := by
  have key : ∀ q : ℚ, 0 ≤ q → format_timestamp q = spec_format (pyInt q).toNat :=
    fun q h => format_timestamp_eq_spec_format h
  have examp : ∀ n : ℕ, format_timestamp (n : ℚ) = spec_format n := by
    intro n
    rw [key (n : ℚ) (by positivity), pyInt_natCast, toNat_intOfNat]
  refine ⟨key, ?_, ?_, ?_, ?_, ?_⟩
  · have := examp 0; norm_num at this; rw [this]; decide
  · have := examp 59; norm_num at this; rw [this]; decide
  · have := examp 60; norm_num at this; rw [this]; decide
  · have := examp 3661; norm_num at this; rw [this]; decide
  · have h19 : pyInt ((19 : ℚ) / 10) = 1 := by
      unfold pyInt
      norm_num
      decide
    rw [key _ (by norm_num), h19]
    decide

theorem format_timestamp_spec_witness :
    (0 : ℚ) ≤ 3661 ∧ format_timestamp 3661 = spec_format (pyInt 3661).toNat :=
  ⟨by norm_num, format_timestamp_spec.1 3661 (by norm_num)⟩

/-- C10: on non-negative input the formatter output is in canonical clock
form: the seconds component is in `[0, 60)` and padded to two digits, the
minutes component is in `[0, 60)` whenever an hours component is present,
and the hours component appears exactly when the truncated input reaches
3600 seconds. -/
theorem format_timestamp_canonical :
    ∀ q : ℚ, 0 ≤ q →
      (pyInt q).toNat % 60 < 60 ∧
      (pyInt q).toNat % 3600 / 60 < 60 ∧
      (pad2 (Int.ofNat ((pyInt q).toNat % 60))).length = 2 ∧
      (pad2 (Int.ofNat ((pyInt q).toNat % 3600 / 60))).length = 2 ∧
      (3600 ≤ (pyInt q).toNat →
        format_timestamp q =
          toString ((pyInt q).toNat / 3600) ++ "h" ++
            pad2 (Int.ofNat ((pyInt q).toNat % 3600 / 60)) ++ "m" ++
            pad2 (Int.ofNat ((pyInt q).toNat % 60)) ++ "s") ∧
      ((pyInt q).toNat < 3600 →
        format_timestamp q =
          toString ((pyInt q).toNat / 60) ++ "m" ++
            pad2 (Int.ofNat ((pyInt q).toNat % 60)) ++ "s") := by
  intro q h
  have key := format_timestamp_eq_spec_format h
  refine ⟨by omega, by omega, pad2_length _ (by omega), pad2_length _ (by omega), ?_, ?_⟩
  · intro ht
    rw [key]
    simp only [spec_format]
    rw [if_neg (Nat.not_lt.mpr ht)]
  · intro ht
    rw [key]
    simp only [spec_format]
    rw [if_pos ht]

theorem format_timestamp_canonical_witness :
    (0 : ℚ) ≤ 3661 ∧
    ((pyInt (3661 : ℚ)).toNat % 60 < 60 ∧
      (pyInt (3661 : ℚ)).toNat % 3600 / 60 < 60 ∧
      (pad2 (Int.ofNat ((pyInt (3661 : ℚ)).toNat % 60))).length = 2 ∧
      (pad2 (Int.ofNat ((pyInt (3661 : ℚ)).toNat % 3600 / 60))).length = 2 ∧
      (3600 ≤ (pyInt (3661 : ℚ)).toNat →
        format_timestamp 3661 =
          toString ((pyInt (3661 : ℚ)).toNat / 3600) ++ "h" ++
            pad2 (Int.ofNat ((pyInt (3661 : ℚ)).toNat % 3600 / 60)) ++ "m" ++
            pad2 (Int.ofNat ((pyInt (3661 : ℚ)).toNat % 60)) ++ "s") ∧
      ((pyInt (3661 : ℚ)).toNat < 3600 →
        format_timestamp 3661 =
          toString ((pyInt (3661 : ℚ)).toNat / 60) ++ "m" ++
            pad2 (Int.ofNat ((pyInt (3661 : ℚ)).toNat % 60)) ++ "s")) :=
  ⟨by norm_num, format_timestamp_canonical 3661 (by norm_num)⟩

/-- `file_size_mb` as computed at src/transcribe.py line 77 from the byte
size reported by `stat()`: true division of the byte count by 1024*1024. -/
def file_size_mb (size_bytes : ℕ) : ℚ := (size_bytes : ℚ) / (1024 * 1024)

/-- The request timeout computed at src/transcribe.py line 78:
`timeout = max(120, int(file_size_mb / 10 * 60) + 60)`. -/
def compute_timeout (size_bytes : ℕ) : Int :=
  max 120 (pyInt (file_size_mb size_bytes / 10 * 60) + 60)

theorem pyInt_eq_floor {q : ℚ} (h : 0 ≤ q) : pyInt q = ⌊q⌋ := by
  rw [Rat.floor_def]
  exact Int.tdiv_eq_ediv (Rat.num_nonneg.mpr h) (Int.ofNat_zero_le _)

/-- C3 counterexample: for a file of 52428801 bytes (100 MB plus one byte)
the code computes 360 seconds, while the exact formula of the claim gives
a value strictly between 360 and 361; the two disagree because the code
truncates the proportional term with `int()` before adding the margin. -/
theorem compute_timeout_claim_counterexample :
    (compute_timeout 52428801 : ℚ) ≠
      max 120 (file_size_mb 52428801 / 10 * 60 + 60) := by
  have h1 : file_size_mb 52428801 / 10 * 60 = 157286403 / 524288 := by
    unfold file_size_mb
    norm_num
  have h2 : pyInt ((157286403 : ℚ) / 524288) = 300 := by
    unfold pyInt
    norm_num
    decide
  unfold compute_timeout
  rw [h1, h2]
  have h3 : max (120 : ℤ) (300 + 60) = 360 := by decide
  rw [h3]
  have h4 : max (120 : ℚ) (157286403 / 524288 + 60) = 157286403 / 524288 + 60 :=
    max_eq_right (by norm_num)
  rw [h4]
  norm_num

/-- C3 amended: the computed timeout equals
`max(120, floor(file_size_MB / 10 * 60) + 60)` — the proportional term is
truncated to whole seconds before the 60-second margin is added; the two
claimed data points (100 MB yields 660, 1 MB yields 120) hold. -/
theorem compute_timeout_truncated :
    (∀ size_bytes : ℕ,
      compute_timeout size_bytes =
        max 120 (⌊file_size_mb size_bytes / 10 * 60⌋ + 60)) ∧
    compute_timeout (100 * 1024 * 1024) = 660 ∧
    compute_timeout (1024 * 1024) = 120 := by
  refine ⟨?_, ?_, ?_⟩
  · intro n
    unfold compute_timeout
    rw [pyInt_eq_floor (by unfold file_size_mb; positivity)]
  · have h1 : file_size_mb (100 * 1024 * 1024) / 10 * 60 = 600 := by
      unfold file_size_mb
      norm_num
    have h2 : pyInt (600 : ℚ) = 600 := by
      unfold pyInt
      norm_num
    unfold compute_timeout
    rw [h1, h2]
    decide
  · have h1 : file_size_mb (1024 * 1024) / 10 * 60 = 6 := by
      unfold file_size_mb
      norm_num
    have h2 : pyInt (6 : ℚ) = 6 := by
      unfold pyInt
      norm_num
    unfold compute_timeout
    rw [h1, h2]
    decide

/-- Python `str.strip()` as used on segment text (line 112): remove leading
and trailing whitespace characters. -/
def py_strip (s : String) : String :=
  String.mk (((s.data.dropWhile Char.isWhitespace).reverse.dropWhile
    Char.isWhitespace).reverse)

/-- One word entry of the upstream response (an element of
`segment["words"]`); a `none` field models an absent dictionary key, read
by the code with `w.get(key, default)` (lines 117-121). -/
structure RawWord where
  word : Option String
  start : Option ℚ
  «end» : Option ℚ

/-- One segment of the upstream response. `words = none` models the
`"words"` key being absent, i.e. `"words" in segment` evaluating false
(line 115). -/
structure RawSegment where
  start : Option ℚ
  «end» : Option ℚ
  text : Option String
  words : Option (List RawWord)

/-- The decoded upstream JSON response body (`result = response.json()`,
line 99); every field the code reads with `.get` is optional. -/
structure RawResponse where
  language : Option String
  duration : Option ℚ
  segments : Option (List RawSegment)

/-- A normalized word entry: exactly the keys `word`, `start`, `end` built
at lines 117-121. -/
structure Word where
  word : String
  start : ℚ
  «end» : ℚ
deriving DecidableEq

/-- A normalized segment (`seg_data`, lines 109-123); `words = none` means
the key is omitted from the dictionary. -/
structure Segment where
  start : ℚ
  «end» : ℚ
  text : String
  words : Option (List Word)
deriving DecidableEq

/-- The transcript document built at lines 101-125 and serialized at lines
214-215. -/
structure Transcript where
  audio_file : String
  language : String
  duration : ℚ
  segments : List Segment
deriving DecidableEq

/-- Normalization of one word entry (lines 117-121):
`w.get("word", "")`, `w.get("start", 0)`, `w.get("end", 0)`. -/
def normalize_word (w : RawWord) : Word :=
  { word := w.word.getD ""
    start := w.start.getD 0
    «end» := w.«end».getD 0 }

/-- Normalization of one response segment (lines 109-123): defaults
`start 0`, `end 0`, `text ""` then stripped; the `words` key is added only
when present in the source segment, mapping `normalize_word` over it. -/
def normalize_segment (s : RawSegment) : Segment :=
  { start := s.start.getD 0
    «end» := s.«end».getD 0
    text := py_strip (s.text.getD "")
    words := s.words.map (fun l => l.map normalize_word) }

/-- The transcript dictionary built by `transcribe` (lines 101-125) from
the decoded response: `language` defaults to `"en"`, `duration` to `0`,
`segments` defaults to the empty list and is normalized element by element
in response order. -/
def transcribe_normalize (audio_name : String) (r : RawResponse) : Transcript :=
  { audio_file := audio_name
    language := r.language.getD "en"
    duration := r.duration.getD 0
    segments := (r.segments.getD []).map normalize_segment }

/-- C4: a normalized segment carries a `words` entry exactly when the
source segment had one; an absent source key stays absent in the output
(it does not become an empty list or a null). -/
theorem normalize_words_key_iff :
    ∀ s : RawSegment,
      ((normalize_segment s).words = none ↔ s.words = none) ∧
      ((normalize_segment s).words.isSome ↔ s.words.isSome) := by
  intro s
  cases hw : s.words <;> simp [normalize_segment, hw]

/-- C5: normalization is total and substitutes the documented defaults for
absent optional fields: `language` becomes `"en"`, `duration` becomes `0`,
absent `segments` becomes the empty list, a segment with absent `text`
gets `""` (and text is always whitespace-stripped), absent `start` or
`end` become `0`. -/
theorem normalize_defaults :
    ∀ (name : String) (r : RawResponse),
      (r.language = none → (transcribe_normalize name r).language = "en") ∧
      (r.duration = none → (transcribe_normalize name r).duration = 0) ∧
      (r.segments = none → (transcribe_normalize name r).segments = []) ∧
      ∀ s : RawSegment,
        (normalize_segment s).text = py_strip (s.text.getD "") ∧
        (s.text = none → (normalize_segment s).text = "") ∧
        (s.start = none → (normalize_segment s).start = 0) ∧
        (s.«end» = none → (normalize_segment s).«end» = 0) := by
  intro name r
  refine ⟨fun h => ?_, fun h => ?_, fun h => ?_, fun s => ⟨rfl, fun h => ?_, fun h => ?_, fun h => ?_⟩⟩
  · simp [transcribe_normalize, h]
  · simp [transcribe_normalize, h]
  · simp [transcribe_normalize, h]
  · simp [normalize_segment, h]
    rfl
  · simp [normalize_segment, h]
  · simp [normalize_segment, h]

theorem normalize_defaults_witness :
    ({ language := none, duration := none, segments := none } : RawResponse).language = none ∧
    (transcribe_normalize "a.wav"
      { language := none, duration := none, segments := none }).language = "en" ∧
    (transcribe_normalize "a.wav"
      { language := none, duration := none, segments := none }).duration = 0 ∧
    (transcribe_normalize "a.wav"
      { language := none, duration := none, segments := none }).segments = [] ∧
    (normalize_segment { start := none, «end» := none, text := none, words := none }).text = "" ∧
    (normalize_segment { start := none, «end» := none, text := none, words := none }).start = 0 ∧
    (normalize_segment { start := none, «end» := none, text := none, words := none }).«end» = 0 :=
  ⟨rfl,
   (normalize_defaults "a.wav" _).1 rfl,
   (normalize_defaults "a.wav" _).2.1 rfl,
   (normalize_defaults "a.wav" _).2.2.1 rfl,
   ((normalize_defaults "a.wav" { language := none, duration := none, segments := none }).2.2.2
      { start := none, «end» := none, text := none, words := none }).2.1 rfl,
   ((normalize_defaults "a.wav" { language := none, duration := none, segments := none }).2.2.2
      { start := none, «end» := none, text := none, words := none }).2.2.1 rfl,
   ((normalize_defaults "a.wav" { language := none, duration := none, segments := none }).2.2.2
      { start := none, «end» := none, text := none, words := none }).2.2.2 rfl⟩

/-- C7: segment order and count are preserved by normalization: the
transcript has exactly one normalized segment per response segment, at the
same index. -/
theorem normalize_preserves_order :
    ∀ (name : String) (r : RawResponse),
      (transcribe_normalize name r).segments.length = (r.segments.getD []).length ∧
      ∀ i : ℕ,
        (transcribe_normalize name r).segments.get? i =
          ((r.segments.getD []).get? i).map normalize_segment := by
  intro name r
  constructor
  · simp [transcribe_normalize]
  · intro i
    simp [transcribe_normalize, List.get?_eq_getElem?]

/-- C9: a present word list is normalized elementwise in order, and each
entry is built with exactly the keys `word`, `start`, `end`, defaulting an
absent `word` to `""` and absent `start`/`end` to `0` — word
normalization is total. -/
theorem normalize_word_fields :
    ∀ (s : RawSegment) (l : List RawWord) (w : RawWord), s.words = some l →
      (normalize_segment s).words = some (l.map normalize_word) ∧
      (normalize_word w).word = w.word.getD "" ∧
      (normalize_word w).start = w.start.getD 0 ∧
      (normalize_word w).«end» = w.«end».getD 0 ∧
      (w.word = none → (normalize_word w).word = "") ∧
      (w.start = none → (normalize_word w).start = 0) ∧
      (w.«end» = none → (normalize_word w).«end» = 0) := by
  intro s l w hl
  refine ⟨by simp [normalize_segment, hl], rfl, rfl, rfl, fun h => ?_, fun h => ?_, fun h => ?_⟩
  · simp [normalize_word, h]
  · simp [normalize_word, h]
  · simp [normalize_word, h]

theorem normalize_word_fields_witness :
    ({ start := none, «end» := none, text := none,
        words := some [{ word := none, start := none, «end» := none }] } : RawSegment).words =
      some [{ word := none, start := none, «end» := none }] ∧
    (normalize_segment
      { start := none, «end» := none, text := none,
        words := some [{ word := none, start := none, «end» := none }] }).words =
      some ([({ word := none, start := none, «end» := none } : RawWord)].map normalize_word) ∧
    (normalize_word { word := none, start := none, «end» := none }).word = "" ∧
    (normalize_word { word := none, start := none, «end» := none }).start = 0 ∧
    (normalize_word { word := none, start := none, «end» := none }).«end» = 0 :=
  ⟨rfl,
   (normalize_word_fields _ _ { word := none, start := none, «end» := none } rfl).1,
   (normalize_word_fields
      { start := none, «end» := none, text := none,
        words := some [{ word := none, start := none, «end» := none }] }
      [{ word := none, start := none, «end» := none }]
      { word := none, start := none, «end» := none } rfl).2.2.2.2.1 rfl,
   (normalize_word_fields
      { start := none, «end» := none, text := none,
        words := some [{ word := none, start := none, «end» := none }] }
      [{ word := none, start := none, «end» := none }]
      { word := none, start := none, «end» := none } rfl).2.2.2.2.2.1 rfl,
   (normalize_word_fields
      { start := none, «end» := none, text := none,
        words := some [{ word := none, start := none, «end» := none }] }
      [{ word := none, start := none, «end» := none }]
      { word := none, start := none, «end» := none } rfl).2.2.2.2.2.2 rfl⟩

/-- A JSON value tree: the document structure that `json.dump` writes with
indentation at lines 214-215 and that `json.load` reads back. -/
inductive JValue where
  | null : JValue
  | bool : Bool → JValue
  | num : ℚ → JValue
  | str : String → JValue
  | arr : List JValue → JValue
  | obj : List (String × JValue) → JValue

/-- The JSON object `json.dump` writes for one word dictionary (built at
lines 117-121): keys `word`, `start`, `end` in insertion order. -/
def wordToJson (w : Word) : JValue :=
  .obj [("word", .str w.word), ("start", .num w.start), ("end", .num w.«end»)]

/-- The JSON object for one segment dictionary (`seg_data`, lines
109-123): keys `start`, `end`, `text`, and `words` only when the segment
carries them. -/
def segmentToJson (s : Segment) : JValue :=
  .obj ([("start", .num s.start), ("end", .num s.«end»), ("text", .str s.text)] ++
    (match s.words with
     | none => []
     | some ws => [("words", .arr (ws.map wordToJson))]))

/-- The JSON document serialized at lines 214-215: keys `audio_file`,
`language`, `duration`, `segments` in insertion order. -/
def transcriptToJson (t : Transcript) : JValue :=
  .obj [("audio_file", .str t.audio_file), ("language", .str t.language),
    ("duration", .num t.duration), ("segments", .arr (t.segments.map segmentToJson))]

/-- Modelled from the spec: the repository only serializes the transcript
(`json.dump`); the parsing direction required by the round-trip law of
section 8 is not in src/.  Key lookup in a decoded JSON object. -/
def lookupField (fields : List (String × JValue)) (k : String) : Option JValue :=
  (fields.find? (fun p => p.1 == k)).map (fun p => p.2)

/-- Modelled from the spec: read a JSON string value. -/
def asStr : JValue → Option String
  | .str s => some s
  | _ => none

/-- Modelled from the spec: read a JSON number value. -/
def asNum : JValue → Option ℚ
  | .num q => some q
  | _ => none

/-- Modelled from the spec: read a JSON array value. -/
def asArr : JValue → Option (List JValue)
  | .arr l => some l
  | _ => none

/-- Modelled from the spec: read a JSON object value. -/
def asObj : JValue → Option (List (String × JValue))
  | .obj l => some l
  | _ => none

/-- Modelled from the spec: parse one word object of the section 3 schema
(keys `word`, `start`, `end`). -/
def parseWord (j : JValue) : Option Word := do
  let fs ← asObj j
  let w ← (lookupField fs "word").bind asStr
  let s ← (lookupField fs "start").bind asNum
  let e ← (lookupField fs "end").bind asNum
  pure { word := w, start := s, «end» := e }

/-- Modelled from the spec: parse a list of word objects, in order. -/
def parseWordList : List JValue → Option (List Word)
  | [] => some []
  | j :: js => do
      let w ← parseWord j
      let ws ← parseWordList js
      pure (w :: ws)

/-- Modelled from the spec: parse one segment object of the section 3
schema (keys `start`, `end`, `text`, optional `words`). -/
def parseSegment (j : JValue) : Option Segment := do
  let fs ← asObj j
  let s ← (lookupField fs "start").bind asNum
  let e ← (lookupField fs "end").bind asNum
  let tx ← (lookupField fs "text").bind asStr
  match lookupField fs "words" with
  | none => pure { start := s, «end» := e, text := tx, words := none }
  | some jw => do
      let l ← asArr jw
      let ws ← parseWordList l
      pure { start := s, «end» := e, text := tx, words := some ws }

/-- Modelled from the spec: parse a list of segment objects, in order. -/
def parseSegmentList : List JValue → Option (List Segment)
  | [] => some []
  | j :: js => do
      let s ← parseSegment j
      let ss ← parseSegmentList js
      pure (s :: ss)

/-- Modelled from the spec: parse a transcript document of the section 3
schema (keys `audio_file`, `language`, `duration`, `segments`). -/
def parseTranscript (j : JValue) : Option Transcript := do
  let fs ← asObj j
  let af ← (lookupField fs "audio_file").bind asStr
  let lang ← (lookupField fs "language").bind asStr
  let dur ← (lookupField fs "duration").bind asNum
  let segs ← (lookupField fs "segments").bind asArr
  let ss ← parseSegmentList segs
  pure { audio_file := af, language := lang, duration := dur, segments := ss }

theorem parseWord_roundtrip (w : Word) : parseWord (wordToJson w) = some w := rfl

theorem parseWordList_roundtrip (ws : List Word) :
    parseWordList (ws.map wordToJson) = some ws := by
  induction ws with
  | nil => rfl
  | cons w ws ih => simp [List.map, parseWordList, parseWord_roundtrip, ih]

theorem parseSegment_roundtrip (s : Segment) :
    parseSegment (segmentToJson s) = some s := by
  obtain ⟨st, en, tx, w⟩ := s
  cases w with
  | none => rfl
  | some ws =>
    simp +decide [parseSegment, segmentToJson, lookupField, List.find?,
      asObj, asNum, asStr, asArr, parseWordList_roundtrip]

theorem parseSegmentList_roundtrip (l : List Segment) :
    parseSegmentList (l.map segmentToJson) = some l := by
  induction l with
  | nil => rfl
  | cons s l ih => simp [List.map, parseSegmentList, parseSegment_roundtrip, ih]

/-- C6: round-trip law — serializing a Transcript document to JSON and
parsing the JSON back yields the original document, field for field. -/
theorem transcript_roundtrip :
    ∀ t : Transcript, parseTranscript (transcriptToJson t) = some t := by
  intro t
  obtain ⟨af, lang, dur, segs⟩ := t
  simp +decide [parseTranscript, transcriptToJson, lookupField, List.find?,
    asObj, asStr, asNum, asArr, parseSegmentList_roundtrip]

/-- One printed segment line (src/transcribe.py line 148):
`f"[{start} -> {end}]  {text}"` with both timestamps rendered by
`format_timestamp`. -/
def segment_line (s : Segment) : String :=
  "[" ++ format_timestamp s.start ++ " -> " ++ format_timestamp s.«end» ++ "]  " ++ s.text

/-- The separator `"=" * 60` used by `print_transcript`. -/
def eq_sep : String := String.mk (List.replicate 60 '=')

/-- The sequence of `print(...)` arguments emitted by `print_transcript`
(src/transcribe.py lines 133-150), in order, one list element per call;
newlines embedded in the source f-strings are kept.  The transcript
dictionary built by this program always carries the `duration` and
`language` keys, so the `.get` defaults of lines 135-136 never fire and
the fields are read directly. -/
def print_transcript_calls (t : Transcript) : List String :=
  ("\n" ++ eq_sep) ::
  "TRANSCRIPT" ::
  ("Duration: " ++ format_timestamp t.duration ++ "  |  Language: " ++ t.language) ::
  ("Segments: " ++ toString t.segments.length) ::
  (eq_sep ++ "\n") ::
  (t.segments.map segment_line ++ [("\n" ++ eq_sep)])

/-- C8: the console rendering prints, after a fixed five-line banner, one
line per segment in segment order of the exact form
`[<start> -> <end>]  <text>`, followed by one closing separator; for the
two-segment example transcript the lines `[0m00s -> 0m15s]  hello` and
`[0m15s -> 0m30s]  world` are produced in that order. -/
theorem print_transcript_lines_spec :
    (∀ t : Transcript, ∃ pre post : List String,
      print_transcript_calls t =
        pre ++ t.segments.map (fun s =>
          "[" ++ format_timestamp s.start ++ " -> " ++ format_timestamp s.«end» ++
            "]  " ++ s.text) ++ post ∧
      pre.length = 5 ∧ post.length = 1) ∧
    print_transcript_calls
      { audio_file := "video.wav", language := "en", duration := 30,
        segments := [{ start := 0, «end» := 15, text := "hello", words := none },
                     { start := 15, «end» := 30, text := "world", words := none }] } =
      ["\n" ++ eq_sep, "TRANSCRIPT", "Duration: 0m30s  |  Language: en", "Segments: 2",
        eq_sep ++ "\n", "[0m00s -> 0m15s]  hello", "[0m15s -> 0m30s]  world",
        "\n" ++ eq_sep] := by
  constructor
  · intro t
    refine ⟨["\n" ++ eq_sep, "TRANSCRIPT",
      "Duration: " ++ format_timestamp t.duration ++ "  |  Language: " ++ t.language,
      "Segments: " ++ toString t.segments.length, eq_sep ++ "\n"],
      ["\n" ++ eq_sep], rfl, rfl, rfl⟩
  · decide

/-- The relevant file-system state of a run of `main` that used a
temporary location: whether the `mkdtemp` directory and the WAV inside it
still exist when the process exits. -/
structure FsState where
  tmpDirExists : Bool
  tmpWavExists : Bool
deriving DecidableEq

/-- How a run of `main` ends. -/
inductive RunOutcome where
  | success : RunOutcome
  | transcodeFailure : RunOutcome
  | upstreamFailure : RunOutcome
deriving DecidableEq

/-- Control flow of `main` (src/transcribe.py lines 200-225) restricted to
its effect on temporary files, as a function of the branch taken
(`--keep-audio` present or not) and of the two fallible stages.  With
`--keep-audio` the WAV is written beside the video and no temporary
directory is created.  Without it, `tempfile.mkdtemp()` runs first, then
`extract_audio`; a transcoder failure raises `RuntimeError` at line 65,
before the `try:` of line 209 is entered, so the `finally:` cleanup of
lines 221-225 does not run on that path and the directory survives.
Inside the `try:`, `transcribe` either succeeds or raises on a non-200
response; on both of those paths the `finally:` block sees the WAV
(extraction succeeded), unlinks it and removes its parent directory. -/
def main_run (keep_audio extract_ok transcribe_ok : Bool) :
    FsState × RunOutcome :=
  if keep_audio then
    ({ tmpDirExists := false, tmpWavExists := false },
      if extract_ok then
        if transcribe_ok then .success else .upstreamFailure
      else .transcodeFailure)
  else
    if extract_ok then
      ({ tmpDirExists := false, tmpWavExists := false },
        if transcribe_ok then .success else .upstreamFailure)
    else
      ({ tmpDirExists := true, tmpWavExists := false }, .transcodeFailure)

/-- C1 counterexample: in a run without `--keep-audio` in which the
transcoder fails, the temporary directory allocated by `mkdtemp` is still
present when the process exits — the claim that every exit path deletes
the temporary directory is false on the transcode-failure path. -/
theorem cleanup_claim_counterexample :
    ¬ ((main_run false false true).1 =
        { tmpDirExists := false, tmpWavExists := false }) := by
  decide

/-- C1 amended: without `--keep-audio` a temporary directory is allocated
before extraction, and on the exit paths that reach the `try:` block —
success and remote-call failure — the WAV and its directory are deleted;
but when the transcoder fails, the run exits before the `try/finally` and
the temporary directory (with no WAV in it) remains. -/
theorem cleanup_amended :
    ∀ transcribe_ok : Bool,
      (main_run false true transcribe_ok).1 =
        { tmpDirExists := false, tmpWavExists := false } ∧
      (main_run false false transcribe_ok).1 =
        { tmpDirExists := true, tmpWavExists := false } ∧
      (main_run false false transcribe_ok).2 = RunOutcome.transcodeFailure := by
  decide
